import Mathlib

/-!
Shallow embedding of `vqa/dataset/sample.py`: the VQA sample assembly and
encoding pipeline (Question, Answer, Image entities and the VQASample
aggregate with its `get_input` / `get_output` contract).

Conventions of the embedding:
- Python `int` values are modelled as `Int`; token indices produced by the
  tokenizer are modelled as `Nat` (the spec declares them non-negative).
- Pixel values are modelled as exact rationals (`ℚ`); the float32 cast in
  `Image.load` is modelled as the identity on values.
- Raised Python exceptions are modelled as `Except` errors, classified by
  the error taxonomy of the spec (section 7); two further failure modes of
  the code that fall outside that taxonomy get their own constructors.
- External collaborators (keras tokenizer, keras `pad_sequences`, scipy
  `imread` / `imresize`, `os.path.isfile`) are modelled at their interface
  boundary, as the spec prescribes; `imread` and `isfile` are passed in as
  explicit parameters.
-/

set_option autoImplicit false

/-- Error outcomes. The first four constructors are the error taxonomy of the
spec, section 7, under which each raise site of the source is classified by
its cause: `InvalidArgument` for the ValueError/TypeError raises of the
constructors, `NotFound` for a missing image file, `PreconditionError` for
state not yet established (output requested on a TEST sample; tokenization
requested when no tokenizer was ever supplied, an AttributeError in the
source since the attribute is never created), `OutOfRange` for the numpy
bounds failure of the one-hot assignment `answer[idx] = 1` when
`idx >= vocab_size`. The last two constructors are failure modes of the
source outside the taxonomy of the spec: `IndexError` for the unguarded
first-element read `answer[0]` on an empty token list, and
`AmbiguousTruthValue` for the numpy ValueError raised by `if self._image:`
when the cached array has more than one element. -/
inductive VQAError where
  | InvalidArgument
  | NotFound
  | PreconditionError
  | OutOfRange
  | IndexError
  | AmbiguousTruthValue
  deriving DecidableEq, Repr

/-- Modelled from the spec: the `DatasetType` enumeration lives in the
module `types` of the repository, which is not part of the given sources;
the spec (section 3) declares the dataset split values TRAIN, VALIDATION,
TEST. -/
inductive DatasetType where
  | TRAIN
  | VALIDATION
  | TEST
  deriving DecidableEq, Repr

/-- Modelled from the spec: `keras.preprocessing.text.Tokenizer` is an
external collaborator, consumed as an opaque text-to-index-sequence service
(spec sections 1 and 6). `texts_to_sequences` is its
`texts_to_sequences([text])[0]` call specialised to one string, returning
an ordered sequence of non-negative vocabulary indices. -/
structure Tokenizer where
  texts_to_sequences : String → List Nat

/-- The `Question` entity of `sample.py`. The `tokenizer` field is `none`
when the Python attribute `self.tokenizer` was never created. -/
structure Question where
  id : Int
  question : String
  image_id : Int
  vocab_size : Int
  tokenizer : Option Tokenizer
  tokens_idx : List Nat

/-- `Question.__init__`. Mirrors the validation of the source: the id check
tests `self.id < 0`; the image_id block of the source also tests
`self.id < 0` (not `self.image_id`); the vocab_size block tests
`self.vocab_size < 0`. Each failed check raises ValueError, classified as
`InvalidArgument`. If a tokenizer is given, `tokens_idx` is computed at
once; otherwise it starts empty. -/
def Question.init (question_id : Int) (question : String) (image_id : Int)
    (vocab_size : Int) (tokenizer : Option Tokenizer) :
    Except VQAError Question :=
  if question_id < 0 then .error .InvalidArgument
  else if question_id < 0 then .error .InvalidArgument
  else if vocab_size < 0 then .error .InvalidArgument
  else match tokenizer with
    | none => .ok ⟨question_id, question, image_id, vocab_size, none, []⟩
    | some tk =>
        .ok ⟨question_id, question, image_id, vocab_size, some tk,
          tk.texts_to_sequences question⟩

/-- `Question.tokenize`. With an explicit tokenizer it is stored and the
indices are recomputed; otherwise the stored tokenizer is reused. When no
tokenizer was ever supplied, the source evaluates `self.tokenizer` on an
object without that attribute, an AttributeError, classified as
`PreconditionError`. Returns the updated entity together with the computed
index list (the source mutates `self` and returns the list). -/
def Question.tokenize (q : Question) (tokenizer : Option Tokenizer) :
    Except VQAError (Question × List Nat) :=
  match tokenizer with
  | some tk =>
      let idx := tk.texts_to_sequences q.question
      .ok ({ q with tokenizer := some tk, tokens_idx := idx }, idx)
  | none =>
      match q.tokenizer with
      | some tk =>
          let idx := tk.texts_to_sequences q.question
          .ok ({ q with tokens_idx := idx }, idx)
      | none => .error .PreconditionError

/-- `Question.get_tokens`: pure accessor of the current token indices. -/
def Question.get_tokens (q : Question) : List Nat :=
  q.tokens_idx

/-- `Question.get_tokens_length`. -/
def Question.get_tokens_length (q : Question) : Nat :=
  q.tokens_idx.length

/-- The `Answer` entity of `sample.py`. -/
structure Answer where
  id : Int
  answer : String
  question_id : Int
  vocab_size : Int
  tokenizer : Option Tokenizer
  tokens_idx : List Nat

/-- `Answer.__init__`. Mirrors the validation of the source: the id check
tests `self.id < 0`; the question_id block of the source also tests
`self.id < 0` (not `self.question_id`); the vocab_size block tests
`self.vocab_size < 0`. -/
def Answer.init (answer_id : Int) (answer : String) (question_id : Int)
    (vocab_size : Int) (tokenizer : Option Tokenizer) :
    Except VQAError Answer :=
  if answer_id < 0 then .error .InvalidArgument
  else if answer_id < 0 then .error .InvalidArgument
  else if vocab_size < 0 then .error .InvalidArgument
  else match tokenizer with
    | none => .ok ⟨answer_id, answer, question_id, vocab_size, none, []⟩
    | some tk =>
        .ok ⟨answer_id, answer, question_id, vocab_size, some tk,
          tk.texts_to_sequences answer⟩

/-- `Answer.tokenize`, same contract as `Question.tokenize`. -/
def Answer.tokenize (a : Answer) (tokenizer : Option Tokenizer) :
    Except VQAError (Answer × List Nat) :=
  match tokenizer with
  | some tk =>
      let idx := tk.texts_to_sequences a.answer
      .ok ({ a with tokenizer := some tk, tokens_idx := idx }, idx)
  | none =>
      match a.tokenizer with
      | some tk =>
          let idx := tk.texts_to_sequences a.answer
          .ok ({ a with tokens_idx := idx }, idx)
      | none => .error .PreconditionError

/-- `Answer.get_tokens`: pure accessor of the current token indices. -/
def Answer.get_tokens (a : Answer) : List Nat :=
  a.tokens_idx

/-- A three-dimensional numeric array (numpy ndarray with three axes),
given by its shape and an element function. -/
structure NDArray3 where
  dim0 : Nat
  dim1 : Nat
  dim2 : Nat
  data : Nat → Nat → Nat → ℚ

/-- Number of elements, as for `numpy.ndarray.size`. -/
def NDArray3.size (a : NDArray3) : Nat :=
  a.dim0 * a.dim1 * a.dim2

/-- The `Image` entity of `sample.py`. `image` models the `_image`
attribute: `none` for the initial empty-list placeholder, `some` once a
pixel array has been cached. -/
structure Image where
  image_id : Int
  image_path : String
  image : Option NDArray3

/-- `Image.__init__`: fails when the path does not reference an existing
file (`os.path.isfile`, passed in as `isfile`); the ValueError of the
source is classified as `NotFound` by the taxonomy of the spec. -/
def Image.init (isfile : String → Bool) (image_id : Int)
    (image_path : String) : Except VQAError Image :=
  if isfile image_path then .ok ⟨image_id, image_path, none⟩
  else .error .NotFound

/-- `Image.load`: decodes the image at `image_path` through the external
service `imread`, casts to float32 (identity on the modelled rational
values) and, when `mem` is true, caches the array. Returns the array and
the updated entity (the source mutates `self`). -/
def Image.load (imread : String → NDArray3) (img : Image) (mem : Bool) :
    NDArray3 × Image :=
  let image := imread img.image_path
  if mem then (image, { img with image := some image })
  else (image, img)

/-- `Image.get_image_array`. The source guards the cache with
`if self._image:`: on the initial empty list this is false and the call
delegates to `load`; on a cached numpy array the truth test raises
ValueError when the array has more than one element
(`AmbiguousTruthValue`), is the truth value of the single element when the
array has exactly one, and is false on an empty array. -/
def Image.get_image_array (imread : String → NDArray3) (img : Image)
    (mem : Bool) : Except VQAError (NDArray3 × Image) :=
  match img.image with
  | some arr =>
      if 1 < arr.size then .error .AmbiguousTruthValue
      else if arr.size = 1 ∧ arr.data 0 0 0 ≠ 0 then .ok (arr, img)
      else .ok (img.load imread mem)
  | none => .ok (img.load imread mem)

/-- The `VQASample` aggregate. The `answer` field is `none` when the
Python attribute `self.answer` was never created (TEST samples). -/
structure VQASample where
  question : Question
  image : Image
  answer : Option Answer
  sample_type : DatasetType

/-- `VQASample.__init__`. The isinstance guards on question, image and
dataset_type are enforced by the types of the embedding; the remaining
check of the source is that a non-TEST sample carries an `Answer`
(TypeError otherwise, classified as `InvalidArgument`). For a TEST sample
the `answer` attribute is never created. -/
def VQASample.init (question : Question) (image : Image)
    (answer : Option Answer) (dataset_type : DatasetType) :
    Except VQAError VQASample :=
  if dataset_type ≠ DatasetType.TEST then
    match answer with
    | some a => .ok ⟨question, image, some a, dataset_type⟩
    | none => .error .InvalidArgument
  else .ok ⟨question, image, none, dataset_type⟩

/-- Modelled from the spec: `keras.preprocessing.sequence.pad_sequences`
is an external collaborator; the spec (section 4.3, step 2) gives its
contract on the question token sequence: pad or truncate to exactly
`maxlen` elements, left-padding with zero when shorter and keeping the
right-most `maxlen` tokens when longer (keras pre-padding defaults). -/
def pad_sequences (seq : List Nat) (maxlen : Nat) : List Nat :=
  if maxlen ≤ seq.length then seq.drop (seq.length - maxlen)
  else List.replicate (maxlen - seq.length) 0 ++ seq

/-- Modelled from the spec: `scipy.misc.imresize` is part of the external
image service; the spec (section 4.3, step 4) requires a deterministic
resampling to a fixed 224 x 224 x 3 shape. Modelled as deterministic
nearest-index resampling onto that shape. -/
def imresize (a : NDArray3) : NDArray3 :=
  ⟨224, 224, 3, fun i j k => a.data (i * a.dim0 / 224) (j * a.dim1 / 224) (k * a.dim2 / 3)⟩

/-- In-place numpy slice update `image[:, :, ch] -= m`. -/
def subChannel (a : NDArray3) (ch : Nat) (m : ℚ) : NDArray3 :=
  { a with data := fun i j k => if k = ch then a.data i j k - m else a.data i j k }

/-- Numpy `transpose((2, 0, 1))`: the channel axis becomes the leading
axis. -/
def transpose201 (a : NDArray3) : NDArray3 :=
  ⟨a.dim2, a.dim0, a.dim1, fun k i j => a.data i j k⟩

/-- `VQASample.get_input`. Pads the question token sequence to
`question_max_len`, retrieves the pixel array (`get_image_array(mem)`),
resizes to 224 x 224 x 3, subtracts the per-channel means 103.939 /
116.779 / 123.68 from channels 2 / 1 / 0 in the native
(height, width, channel) order, and transposes to channel-first layout.
Returns the question vector, the image tensor and the updated sample (the
source mutates the owned Image through its cache). -/
def VQASample.get_input (imread : String → NDArray3) (s : VQASample)
    (question_max_len : Nat) (mem : Bool) :
    Except VQAError (List Nat × NDArray3 × VQASample) :=
  let question := pad_sequences s.question.get_tokens question_max_len
  match s.image.get_image_array imread mem with
  | .error e => .error e
  | .ok (image0, img) =>
      let image1 := imresize image0
      let image2 := subChannel image1 2 (103.939 : ℚ)
      let image3 := subChannel image2 1 (116.779 : ℚ)
      let image4 := subChannel image3 0 (123.68 : ℚ)
      .ok (question, transpose201 image4, { s with image := img })

/-- `VQASample.get_output`. Raises on a TEST sample (TypeError of the
source, classified as `PreconditionError`); reads the answer token list and
takes its unguarded first element (`IndexError` on an empty list); builds
`np.zeros(vocab_size)` (ValueError on a negative size, classified as
`InvalidArgument`) and assigns 1 at the first token index, a numpy indexing
operation that fails when the index is out of bounds (`OutOfRange`). -/
def VQASample.get_output (s : VQASample) : Except VQAError (List ℚ) :=
  if s.sample_type = DatasetType.TEST then .error .PreconditionError
  else
    match s.answer with
    | none => .error .PreconditionError
    | some a =>
        match a.get_tokens with
        | [] => .error .IndexError
        | idx :: _ =>
            if a.vocab_size < 0 then .error .InvalidArgument
            else if idx < a.vocab_size.toNat then
              .ok ((List.replicate a.vocab_size.toNat 0).set idx 1)
            else .error .OutOfRange

/-- Concrete tokenizer for the worked example of the spec (section 8,
property 7): maps the demo question to the indices [3, 7, 1, 2, 9]. -/
def demoTokenizer : Tokenizer :=
  ⟨fun _ => [3, 7, 1, 2, 9]⟩

/-- The Question of the worked example of the spec, already tokenized. -/
def demoQuestion : Question :=
  ⟨1, "what color is the ball", 10, 500, some demoTokenizer, [3, 7, 1, 2, 9]⟩

/-- Concrete external decode service: every path decodes to a 2 x 2 x 3
array of constant pixel value 5. -/
def demoImread : String → NDArray3 :=
  fun _ => ⟨2, 2, 3, fun _ _ _ => 5⟩

/-- A fresh Image entity with an empty cache. -/
def demoImage : Image :=
  ⟨10, "ball.jpg", none⟩

/-- The Answer of the worked example of the spec (section 8, property 9):
vocabulary size 1000, token indices [42]. -/
def demoAnswer : Answer :=
  ⟨4, "red", 1, 1000, none, [42]⟩

/-- A TRAIN sample combining the demo entities. -/
def demoSample : VQASample :=
  ⟨demoQuestion, demoImage, some demoAnswer, DatasetType.TRAIN⟩

/-- The image tensor produced by `get_input` on the demo sample. -/
def demoImgOut : NDArray3 :=
  transpose201 (subChannel (subChannel (subChannel
    (imresize (demoImread "ball.jpg")) 2 (103.939 : ℚ)) 1 (116.779 : ℚ))
    0 (123.68 : ℚ))

/-- A TEST sample: the answer attribute is never created. -/
def demoTestSample : VQASample :=
  ⟨demoQuestion, demoImage, none, DatasetType.TEST⟩

/-- An Answer whose first token index 7 exceeds its vocabulary size 5. -/
def demoBadAnswer : Answer :=
  ⟨4, "red", 1, 5, none, [7]⟩

/-- A TRAIN sample carrying `demoBadAnswer`. -/
def demoBadSample : VQASample :=
  ⟨demoQuestion, demoImage, some demoBadAnswer, DatasetType.TRAIN⟩

/-- An Answer with an empty token index list. -/
def demoEmptyAnswer : Answer :=
  ⟨4, "red", 1, 1000, none, []⟩

/-- A VALIDATION sample carrying `demoEmptyAnswer`. -/
def demoEmptySample : VQASample :=
  ⟨demoQuestion, demoImage, some demoEmptyAnswer, DatasetType.VALIDATION⟩

/-- A Question constructed without a tokenizer. -/
def demoPlainQuestion : Question :=
  ⟨1, "what color is the ball", 10, 500, none, []⟩

/-- The array `demoImread` decodes for the demo image path. -/
def demoLoadedArray : NDArray3 :=
  demoImread "ball.jpg"

/-- The demo Image after a caching load: `_image` holds the decoded
array. -/
def demoCachedImage : Image :=
  ⟨10, "ball.jpg", some demoLoadedArray⟩

/-- The padded question vector always has length `maxlen`. -/
theorem pad_sequences_length (seq : List Nat) (maxlen : Nat) :
    (pad_sequences seq maxlen).length = maxlen := by
  unfold pad_sequences
  split <;> simp <;> omega

/-- Decomposition of a successful `get_input` run: the pixel array
retrieval succeeded, the question component is the padded token sequence,
and the image component is the resized, mean-subtracted, transposed
array. -/
theorem get_input_ok_components (imread : String → NDArray3) (s : VQASample)
    (L : Nat) (mem : Bool) (q : List Nat) (img : NDArray3) (t : VQASample)
    (h : s.get_input imread L mem = .ok (q, img, t)) :
    ∃ raw i2, s.image.get_image_array imread mem = .ok (raw, i2) ∧
      q = pad_sequences s.question.get_tokens L ∧
      img = transpose201 (subChannel (subChannel (subChannel (imresize raw) 2
        (103.939 : ℚ)) 1 (116.779 : ℚ)) 0 (123.68 : ℚ)) := by
  unfold VQASample.get_input at h
  rcases hg : s.image.get_image_array imread mem with e | ⟨raw, i2⟩
  · rw [hg] at h; exact absurd h (by simp)
  · rw [hg] at h
    simp only [Except.ok.injEq, Prod.mk.injEq] at h
    exact ⟨raw, i2, rfl, h.1.symm, h.2.1.symm⟩

/-- C1: for every sample and every `question_max_len = L`, a `get_input`
call returns as its first component a question vector of length exactly L;
when the token sequence has length at most L it is left-padded with zeros
to length L, and when it is longer only the right-most L tokens are
kept. -/
theorem get_input_question_padding (imread : String → NDArray3) (s : VQASample)
    (L : Nat) (mem : Bool) (q : List Nat) (img : NDArray3) (t : VQASample)
    (h : s.get_input imread L mem = .ok (q, img, t)) :
    q.length = L ∧
    (s.question.get_tokens.length ≤ L →
      q = List.replicate (L - s.question.get_tokens.length) 0 ++
        s.question.get_tokens) ∧
    (L < s.question.get_tokens.length →
      q = s.question.get_tokens.drop (s.question.get_tokens.length - L)) := by
  obtain ⟨raw, i2, hg, hq, himg⟩ := get_input_ok_components imread s L mem q img t h
  subst hq
  refine ⟨pad_sequences_length _ _, ?_, ?_⟩
  · intro hle
    unfold pad_sequences
    rcases Nat.eq_or_lt_of_le hle with heq | hlt
    · rw [if_pos (le_of_eq heq.symm)]
      simp [heq]
    · rw [if_neg (by omega)]
  · intro hgt
    unfold pad_sequences
    rw [if_pos (le_of_lt hgt)]

/-- Witness for C1: on the worked example of the spec (tokens
[3, 7, 1, 2, 9], L = 8) `get_input` returns the question vector
[0, 0, 0, 3, 7, 1, 2, 9] of length 8. -/
theorem get_input_question_padding_witness :
    demoSample.get_input demoImread 8 false =
      .ok ([0, 0, 0, 3, 7, 1, 2, 9], demoImgOut, demoSample) ∧
    ([0, 0, 0, 3, 7, 1, 2, 9] : List Nat).length = 8 :=
  ⟨rfl, (get_input_question_padding demoImread demoSample 8 false
    [0, 0, 0, 3, 7, 1, 2, 9] demoImgOut demoSample rfl).1⟩

/-- C2: for a sample whose split is not TEST, whose answer token sequence
starts with an index strictly below the answer vocabulary size,
`get_output` returns a vector of length `vocab_size` with entry 1 at that
first token index and 0 everywhere else. -/
theorem get_output_one_hot (s : VQASample) (a : Answer) (idx : Nat)
    (rest : List Nat) (hsplit : s.sample_type ≠ DatasetType.TEST)
    (hans : s.answer = some a) (htok : a.tokens_idx = idx :: rest)
    (hidx : (idx : Int) < a.vocab_size) :
    ∃ v : List ℚ, s.get_output = .ok v ∧ (v.length : Int) = a.vocab_size ∧
      ∀ j (hj : j < v.length), v.get ⟨j, hj⟩ = if j = idx then 1 else 0 := by
  have hvp : (0 : Int) < a.vocab_size :=
    lt_of_le_of_lt (Int.ofNat_nonneg idx) hidx
  have hidxn : idx < a.vocab_size.toNat := by omega
  refine ⟨(List.replicate a.vocab_size.toNat (0 : ℚ)).set idx 1, ?_, ?_, ?_⟩
  · unfold VQASample.get_output
    rw [if_neg hsplit, hans]
    simp only [Answer.get_tokens, htok]
    rw [if_neg (by omega), if_pos hidxn]
  · simp; omega
  · intro j hj
    have hjn : j < a.vocab_size.toNat := by simpa using hj
    simp only [List.get_eq_getElem, List.getElem_set, List.getElem_replicate]
    rcases eq_or_ne j idx with h | h
    · simp [h]
    · simp [h, Ne.symm h]

/-- Witness for C2: on the worked example of the spec (vocabulary size
1000, answer token indices [42]) `get_output` returns the one-hot vector
with the 1 at position 42. -/
theorem get_output_one_hot_witness :
    ∃ v : List ℚ, demoSample.get_output = .ok v ∧
      (v.length : Int) = demoAnswer.vocab_size ∧
      ∀ j (hj : j < v.length), v.get ⟨j, hj⟩ = if j = 42 then 1 else 0 :=
  get_output_one_hot demoSample demoAnswer 42 [] (by decide) rfl rfl (by decide)

/-- C3: for a sample whose split is not TEST, when the first answer token
index is at least the answer vocabulary size (which is non-negative, as
the constructor validates), `get_output` fails with the OutOfRange error
of the numpy one-hot assignment and returns no vector. -/
theorem get_output_out_of_range (s : VQASample) (a : Answer) (idx : Nat)
    (rest : List Nat) (hsplit : s.sample_type ≠ DatasetType.TEST)
    (hans : s.answer = some a) (htok : a.tokens_idx = idx :: rest)
    (hvnn : 0 ≤ a.vocab_size) (hidx : a.vocab_size ≤ (idx : Int)) :
    s.get_output = .error .OutOfRange := by
  unfold VQASample.get_output
  rw [if_neg hsplit, hans]
  simp only [Answer.get_tokens, htok]
  rw [if_neg (by omega), if_neg (by omega)]

/-- Witness for C3: with vocabulary size 5 and first answer token index 7,
`get_output` fails with OutOfRange. -/
theorem get_output_out_of_range_witness :
    demoBadSample.get_output = .error .OutOfRange :=
  get_output_out_of_range demoBadSample demoBadAnswer 7 [] (by decide) rfl rfl
    (by decide) (by decide)

/-- C4: for every sample constructed with dataset type TEST, `get_output`
fails (TypeError of the source, a PreconditionError of the taxonomy of the
spec) and never returns a value. -/
theorem get_output_test_split (q : Question) (im : Image) (ans : Option Answer)
    (s : VQASample)
    (h : VQASample.init q im ans DatasetType.TEST = .ok s) :
    s.get_output = .error .PreconditionError := by
  unfold VQASample.init at h
  simp only [ne_eq, not_true_eq_false, reduceIte] at h
  have h2 := Except.ok.inj h
  subst h2
  rfl

/-- Witness for C4: a concrete TEST sample built by the constructor fails
on `get_output`. -/
theorem get_output_test_split_witness :
    demoTestSample.get_output = .error .PreconditionError :=
  get_output_test_split demoQuestion demoImage none demoTestSample rfl

/-- C5 (code bug): the source validates the linked id of a Question or
Answer by re-testing `self.id`, so construction with a negative `image_id`
(for a Question) or a negative `question_id` (for an Answer) succeeds and
stores the negative value, where the claim expects an InvalidArgument
failure. -/
theorem init_accepts_negative_linked_id :
    Question.init 5 "what color is the ball" (-3) 100 none =
      .ok ⟨5, "what color is the ball", -3, 100, none, []⟩ ∧
    Answer.init 4 "red" (-3) 1000 none =
      .ok ⟨4, "red", -3, 1000, none, []⟩ :=
  ⟨rfl, rfl⟩

/-- C6: on an entity that never received a tokenizer, `tokenize` without
an argument fails with the no-tokenizer precondition failure; with an
explicit tokenizer argument, the tokenizer is stored on the entity and the
token indices are recomputed from it. -/
theorem tokenize_contract (q : Question) (a : Answer)
    (hq : q.tokenizer = none) (ha : a.tokenizer = none) :
    q.tokenize none = .error .PreconditionError ∧
    a.tokenize none = .error .PreconditionError ∧
    (∀ tk : Tokenizer, q.tokenize (some tk) =
      .ok ({ q with
              tokenizer := some tk,
              tokens_idx := tk.texts_to_sequences q.question },
        tk.texts_to_sequences q.question)) ∧
    (∀ tk : Tokenizer, a.tokenize (some tk) =
      .ok ({ a with
              tokenizer := some tk,
              tokens_idx := tk.texts_to_sequences a.answer },
        tk.texts_to_sequences a.answer)) := by
  refine ⟨?_, ?_, fun tk => rfl, fun tk => rfl⟩
  · unfold Question.tokenize
    rw [hq]
  · unfold Answer.tokenize
    rw [ha]

/-- Witness for C6: a concrete Question and Answer constructed without a
tokenizer fail on a tokenize call without an argument. -/
theorem tokenize_contract_witness :
    demoPlainQuestion.tokenize none = .error .PreconditionError ∧
    demoEmptyAnswer.tokenize none = .error .PreconditionError :=
  ⟨(tokenize_contract demoPlainQuestion demoEmptyAnswer rfl rfl).1,
   (tokenize_contract demoPlainQuestion demoEmptyAnswer rfl rfl).2.1⟩

/-- C7: whenever `get_input` returns, its image component has shape
(3, 224, 224), the channel-first transpose of the fixed 224 x 224 x 3
resize, whatever the dimensions of the source image. -/
theorem get_input_image_shape (imread : String → NDArray3) (s : VQASample)
    (L : Nat) (mem : Bool) (q : List Nat) (img : NDArray3) (t : VQASample)
    (h : s.get_input imread L mem = .ok (q, img, t)) :
    img.dim0 = 3 ∧ img.dim1 = 224 ∧ img.dim2 = 224 := by
  obtain ⟨raw, i2, hg, hq, himg⟩ := get_input_ok_components imread s L mem q img t h
  subst himg
  exact ⟨rfl, rfl, rfl⟩

/-- Witness for C7: the image tensor of the demo `get_input` run (source
image 2 x 2 x 3) has shape (3, 224, 224). -/
theorem get_input_image_shape_witness :
    demoImgOut.dim0 = 3 ∧ demoImgOut.dim1 = 224 ∧ demoImgOut.dim2 = 224 :=
  get_input_image_shape demoImread demoSample 8 false
    [0, 0, 0, 3, 7, 1, 2, 9] demoImgOut demoSample rfl

/-- C8: the image tensor returned by `get_input` equals the resized
224 x 224 x 3 array with 123.68 subtracted on channel 0, 116.779 on
channel 1 and 103.939 on channel 2, the subtraction applied in the native
(height, width, channel) order before the channel-first transpose. -/
theorem get_input_image_normalization (imread : String → NDArray3)
    (s : VQASample) (L : Nat) (mem : Bool) (q : List Nat) (img : NDArray3)
    (t : VQASample) (h : s.get_input imread L mem = .ok (q, img, t)) :
    ∃ raw i2, s.image.get_image_array imread mem = .ok (raw, i2) ∧
      ∀ k i j : Nat, k < 3 →
        img.data k i j = (imresize raw).data i j k -
          (if k = 0 then (123.68 : ℚ) else if k = 1 then (116.779 : ℚ)
            else (103.939 : ℚ)) := by
  obtain ⟨raw, i2, hg, hq, himg⟩ := get_input_ok_components imread s L mem q img t h
  subst himg
  refine ⟨raw, i2, hg, ?_⟩
  intro k i j hk
  interval_cases k <;> simp [transpose201, subChannel]

/-- Witness for C8: the normalization law instantiated on the demo
`get_input` run. -/
theorem get_input_image_normalization_witness :
    ∃ raw i2, demoSample.image.get_image_array demoImread false =
        .ok (raw, i2) ∧
      ∀ k i j : Nat, k < 3 →
        demoImgOut.data k i j = (imresize raw).data i j k -
          (if k = 0 then (123.68 : ℚ) else if k = 1 then (116.779 : ℚ)
            else (103.939 : ℚ)) :=
  get_input_image_normalization demoImread demoSample 8 false
    [0, 0, 0, 3, 7, 1, 2, 9] demoImgOut demoSample rfl

/-- C9 (code bug): `get_image_array` caches on the first call, but its
cache guard `if self._image:` raises the numpy ambiguous-truth-value
ValueError on the second call once a multi-element array is cached, where
the claim expects the cached array to be returned. -/
theorem get_image_array_cached_call_fails :
    Image.get_image_array demoImread demoImage true =
      .ok (demoLoadedArray, demoCachedImage) ∧
    demoCachedImage.image = some demoLoadedArray ∧
    Image.get_image_array demoImread demoCachedImage true =
      .error .AmbiguousTruthValue :=
  ⟨rfl, rfl, rfl⟩

/-- C10: for a non-TEST sample whose answer token sequence is empty,
`get_output` fails on the unguarded first-element read `answer[0]` with an
out-of-bounds indexing error and returns no one-hot vector. -/
theorem get_output_empty_tokens (s : VQASample) (a : Answer)
    (hsplit : s.sample_type ≠ DatasetType.TEST) (hans : s.answer = some a)
    (htok : a.tokens_idx = []) :
    s.get_output = .error .IndexError := by
  unfold VQASample.get_output
  rw [if_neg hsplit, hans]
  simp only [Answer.get_tokens, htok]

/-- Witness for C10: a VALIDATION sample whose answer has no token indices
fails on `get_output` with the indexing error. -/
theorem get_output_empty_tokens_witness :
    demoEmptySample.get_output = .error .IndexError :=
  get_output_empty_tokens demoEmptySample demoEmptyAnswer (by decide) rfl rfl
